import Mathlib

/-
Shallow embedding of the claude-code-context-command token analyzer
(src/scripts/context-analyzer.js, both the full and the simplified
variant, plus the process-wide cache they use).

Event-loop concurrency in the source is determinised: the five category
analyzers run sequentially in launch order, and a scheduling record says
which of them settled before the 3-second global timeout. Filesystem
reads are modelled as environment fields; a value of `none` stands for a
read that would throw (missing file, malformed JSON, or a read past its
per-file timeout).
-/

namespace CCC

/-- Rough token estimation, one token per four characters of text:
`Math.ceil(text.length / 4)` (context-analyzer.js line 17; the simplified
variant repeats the identical definition at line 869). -/
def estimateTokens (text : String) : Nat := (⌈(text.length : ℚ) / 4⌉).toNat

/-- Closed form of the estimator over natural numbers. -/
theorem estimateTokens_eq (s : String) : estimateTokens s = (s.length + 3) / 4 := by
  unfold estimateTokens
  generalize s.length = n
  set k : ℕ := (n + 3) / 4 with hk
  have key1 : n ≤ 4 * k := by omega
  have key2 : 4 * k < n + 4 := by omega
  have h4 : (0:ℚ) < 4 := by norm_num
  have k1Q : (n : ℚ) ≤ 4 * (k : ℚ) := by exact_mod_cast key1
  have k2Q : (4 : ℚ) * (k : ℚ) < (n : ℚ) + 4 := by exact_mod_cast key2
  have hceil : ⌈(n : ℚ) / 4⌉ = (k : ℤ) := by
    rw [Int.ceil_eq_iff]
    have hcast : (((k : ℤ)) : ℚ) = (k : ℚ) := by push_cast; ring
    rw [hcast]
    constructor
    · rw [lt_div_iff₀ h4]
      linarith
    · rw [div_le_iff₀ h4]
      linarith
  rw [hceil]
  simp

/-- One tool of an MCP server in the static token table:
`{ name, tokens }`. -/
structure ToolEntry where
  name : String
  tokens : Nat
deriving DecidableEq, Repr

/-- One server of the static token table: `{ total, tools }`. -/
structure ServerData where
  total : Nat
  tools : List ToolEntry
deriving DecidableEq, Repr

/-- JS `string.endsWith(suffix)` as a suffix check on the character
list. -/
def jsEndsWith (s suffix : String) : Bool := suffix.data.isSuffixOf s.data

/-- JS object property assignment on a string-keyed record kept in
insertion order: overwrite in place when the key exists, append at the
end otherwise. Models `obj[key] = value` on the breakdown objects. -/
def jsSet {α : Type} : List (String × α) → String → α → List (String × α)
  | [], k, v => [(k, v)]
  | p :: rest, k, v => if p.1 == k then (k, v) :: rest else p :: jsSet rest k v

theorem jsSet_lookup_self {α : Type} (l : List (String × α)) (k : String) (v : α) :
    (jsSet l k v).lookup k = some v := by
  induction l with
  | nil => simp [jsSet, List.lookup]
  | cons p rest ih =>
      by_cases h : p.1 = k
      · simp [jsSet, h, List.lookup]
      · have hb : (p.1 == k) = false := beq_eq_false_iff_ne.mpr h
        have hb2 : (k == p.1) = false := beq_eq_false_iff_ne.mpr (Ne.symm h)
        simp [jsSet, hb, hb2, List.lookup, ih]

theorem jsSet_lookup_ne {α : Type} (l : List (String × α)) (k f : String) (v : α)
    (h : f ≠ k) : (jsSet l k v).lookup f = l.lookup f := by
  induction l with
  | nil => simp [jsSet, List.lookup, beq_eq_false_iff_ne.mpr h]
  | cons p rest ih =>
      by_cases hp : p.1 = k
      · have hfp : (f == p.1) = false := beq_eq_false_iff_ne.mpr (hp ▸ h)
        simp [jsSet, hp, List.lookup, beq_eq_false_iff_ne.mpr h, hfp]
      · have hb : (p.1 == k) = false := beq_eq_false_iff_ne.mpr hp
        by_cases hf : f = p.1
        · simp [jsSet, hb, List.lookup, hf]
        · simp [jsSet, hb, List.lookup, beq_eq_false_iff_ne.mpr hf, ih]

/-- A JS number restricted to the values this program can produce: a
non-negative integer, or NaN, which arises from `x += undefined` when a
truthy inherited property is read off the static server table. -/
inductive JsNum where
  | num (n : Nat)
  | nan
deriving DecidableEq, Repr

/-- JS addition on these values: NaN absorbs. -/
def jsAdd : JsNum → JsNum → JsNum
  | .num a, .num b => .num (a + b)
  | _, _ => .nan

instance : Add JsNum := ⟨jsAdd⟩

instance (n : Nat) : OfNat JsNum n := ⟨.num n⟩

theorem jsAdd_num (a b : Nat) : (JsNum.num a) + (JsNum.num b) = JsNum.num (a + b) := rfl

theorem jsNum_ofNat (n : Nat) : (OfNat.ofNat n : JsNum) = JsNum.num n := rfl

theorem num_ne_nan (n : Nat) : JsNum.num n ≠ JsNum.nan := fun h => JsNum.noConfusion h

theorem jsAdd_zero (a : JsNum) : a + JsNum.num 0 = a := by
  cases a with
  | nan => rfl
  | num x => show JsNum.num (x + 0) = JsNum.num x; rw [Nat.add_zero]

theorem jsAdd_ne_nan {a b : JsNum} (ha : a ≠ JsNum.nan) (hb : b ≠ JsNum.nan) :
    a + b ≠ JsNum.nan := by
  cases a with
  | nan => exact absurd rfl ha
  | num x =>
      cases b with
      | nan => exact absurd rfl hb
      | num y => exact fun h => JsNum.noConfusion h

theorem jsAdd_num_assoc (a : JsNum) (b c : Nat) :
    a + JsNum.num b + JsNum.num c = a + JsNum.num (b + c) := by
  cases a with
  | nan => rfl
  | num x => show JsNum.num (x + b + c) = JsNum.num (x + (b + c)); rw [Nat.add_assoc]

/-- JS `number > threshold` for a natural threshold: all comparisons
with NaN are false. -/
def jsGtNat : JsNum → Nat → Bool
  | .num a, b => decide (b < a)
  | .nan, _ => false

/-- The truthy properties every plain JS object literal inherits from
`Object.prototype` (the methods plus the `__proto__` accessor, whose
values are functions or an object, hence truthy). A server name equal to
one of these makes `mcpToolsData[server]` truthy even though the name is
not a key of the table. -/
def objectProtoProps : List String :=
  ["constructor", "hasOwnProperty", "isPrototypeOf", "propertyIsEnumerable",
   "toLocaleString", "toString", "valueOf", "__defineGetter__", "__defineSetter__",
   "__lookupGetter__", "__lookupSetter__", "__proto__"]

/-- Outcome of the property read `table[server]` on a plain JS object
literal: an own property (the table entry), a truthy inherited
`Object.prototype` property (whose `.total` and `.tools` are undefined),
or undefined. -/
inductive PropRead where
  | own (d : ServerData)
  | inherited
  | absent
deriving Repr

/-- `table[server]` with prototype-chain semantics: own properties
shadow inherited ones; names off the table that are inherited
`Object.prototype` properties still read as truthy. -/
def jsGetProp (table : List (String × ServerData)) (server : String) : PropRead :=
  match table.lookup server with
  | some d => .own d
  | none => if server ∈ objectProtoProps then .inherited else .absent

end CCC

namespace CCC.ContextAnalyzer

/-- Snapshot cache TTL: `ttl: 300000` (5 minutes). -/
def cacheTtl : Nat := 300000

/-- File cache TTL: `fileCacheTtl: 600000` (10 minutes). -/
def fileCacheTtl : Nat := 600000

/-- An entry of `cache.fileCache`: the map key together with the stored
record `{ tokens, timestamp }`. The JS `Map` keeps insertion order, so it
is modelled as a list with pairwise distinct paths. -/
structure FileEntry where
  path : String
  tokens : Nat
  timestamp : Nat
deriving DecidableEq, Repr

/-- Cached MCP analysis: `cache.mcpTools = { total, breakdown, detailed }`.
The total is a JS number (it is NaN after an inherited-property server
name was processed), and breakdown or detailed values can be the
undefined assigned in that same case, hence `Option`. -/
structure McpMemo where
  total : JsNum
  breakdown : List (String × Option Nat)
  detailed : List (String × Option (List ToolEntry))
deriving DecidableEq, Repr

/-- Cached agents analysis: `cache.customAgents = { total, breakdown }`. -/
structure AgentsMemo where
  total : Nat
  breakdown : List (String × Nat)
deriving DecidableEq, Repr

/-- The process-wide `cache` object (context-analyzer.js lines 34-44).
Fields start as `null`, modelled by `none`. -/
structure JsCache where
  mcpTools : Option McpMemo
  customAgents : Option AgentsMemo
  memoryFiles : Option Nat
  timestamp : Option Nat
  projectPath : Option String
  fileCache : List FileEntry

/-- JS truthiness of a possibly-null number: both `null` and `0` are
falsy. -/
def truthyNum : Option Nat → Bool
  | none => false
  | some n => n != 0

/-- `isCacheValid(projectPath)` (lines 46-50): the snapshot is valid when
a timestamp is set, the cached project path matches, and the age is below
the 5-minute TTL. -/
def isCacheValid (c : JsCache) (now : Nat) (projectPath : String) : Bool :=
  truthyNum c.timestamp && (c.projectPath == some projectPath) &&
    decide (now - c.timestamp.getD 0 < cacheTtl)

/-- The snapshot-store effect of the MCP analyzer (lines 459-460):
`cache.timestamp = Date.now(); cache.projectPath = this.projectRoot`. -/
def storeSnapshot (c : JsCache) (now : Nat) (projectPath : String) : JsCache :=
  { c with timestamp := some now, projectPath := some projectPath }

/-- `cache.fileCache.get(filePath)` on the insertion-ordered map. -/
def findFileEntry (fc : List FileEntry) (p : String) : Option FileEntry :=
  fc.find? (fun e => e.path == p)

/-- `isFileCacheValid(filePath)` (lines 52-55). -/
def isFileCacheValid (c : JsCache) (now : Nat) (filePath : String) : Bool :=
  match findFileEntry c.fileCache filePath with
  | none => false
  | some e => decide (now - e.timestamp < fileCacheTtl)

/-- `cache.fileCache.set(path, { tokens, timestamp })`: a `Map.set`
overwrites in place when the key exists and appends otherwise. -/
def setFileEntry (fc : List FileEntry) (p : String) (tokens now : Nat) : List FileEntry :=
  if (fc.find? (fun e => e.path == p)).isSome then
    fc.map (fun e => if e.path == p then ⟨p, tokens, now⟩ else e)
  else fc ++ [⟨p, tokens, now⟩]

/-- Ordering used by `entries.sort((a, b) => a[1].timestamp - b[1].timestamp)`:
ascending timestamps. -/
def tsLe (a b : FileEntry) : Prop := a.timestamp ≤ b.timestamp

instance : DecidableRel tsLe := fun a b =>
  inferInstanceAs (Decidable (a.timestamp ≤ b.timestamp))

instance : IsTotal FileEntry tsLe := ⟨fun a b => Nat.le_total a.timestamp b.timestamp⟩

instance : IsTrans FileEntry tsLe := ⟨fun _ _ _ => Nat.le_trans⟩

/-- `cleanupCache()` (lines 58-88): evict file cache entries older than
the file TTL, clear the main snapshot when expired, then if the file
cache still holds more than 100 entries sort them by timestamp ascending
(the JS sort is stable, as is insertion sort) and keep only the last 50
(`entries.slice(-50)`). -/
def cleanupCache (now : Nat) (c : JsCache) : JsCache :=
  let fc1 := c.fileCache.filter (fun e => decide (now - e.timestamp ≤ fileCacheTtl))
  let c1 :=
    if truthyNum c.timestamp && decide (cacheTtl < now - c.timestamp.getD 0) then
      { c with mcpTools := none, customAgents := none, memoryFiles := none,
               timestamp := none, projectPath := none }
    else c
  let fc2 :=
    if 100 < fc1.length then
      (List.insertionSort tsLe fc1).drop (fc1.length - 50)
    else fc1
  { c1 with fileCache := fc2 }

/-- A recommendation pushed by `generateOptimizationRecommendations`
(lines 602-636): `{ impact, title, description, savings }`. -/
structure Recommendation where
  impact : String
  title : String
  description : String
  savings : String
deriving DecidableEq, Repr

def consolidateServersRec : Recommendation :=
  ⟨"high", "Consolidate MCP Servers",
   "Consider disabling unused MCP servers or merging similar functionality",
   "20-40k tokens"⟩

def optimizeAgentsRec : Recommendation :=
  ⟨"high", "Optimize Agent Architecture",
   "Combine overlapping agent responsibilities to reduce redundancy",
   "3-6k tokens"⟩

def selectiveLoadingRec : Recommendation :=
  ⟨"medium", "Selective MCP Loading",
   "Implement on-demand loading for MCP servers",
   "5-15k tokens"⟩

/-- `generateOptimizationRecommendations` (lines 602-636) as the pure
function it is of `mcpTools`, `customAgents` and the number of keys of
`breakdown.mcpServers`: the high-impact items are pushed first, then the
medium-impact one. -/
def generateOptimizationRecommendations (mcpTools customAgents serverCount : Nat) :
    List Recommendation :=
  (if 100000 < mcpTools then [consolidateServersRec] else []) ++
  (if 10000 < customAgents then [optimizeAgentsRec] else []) ++
  (if 15 < serverCount then [selectiveLoadingRec] else [])

/-- The same method over the JS numbers actually held in
`this.results`: a comparison against NaN is false, so a poisoned total
crosses no threshold. On genuine integers this agrees with
`generateOptimizationRecommendations` (lemma below). -/
def generateOptimizationRecommendationsJs (mcpTools customAgents : JsNum)
    (serverCount : Nat) : List Recommendation :=
  (if jsGtNat mcpTools 100000 then [consolidateServersRec] else []) ++
  (if jsGtNat customAgents 10000 then [optimizeAgentsRec] else []) ++
  (if 15 < serverCount then [selectiveLoadingRec] else [])

theorem generateOptimizationRecommendationsJs_num (m c s : Nat) :
    generateOptimizationRecommendationsJs (.num m) (.num c) s =
      generateOptimizationRecommendations m c s := by
  unfold generateOptimizationRecommendationsJs generateOptimizationRecommendations jsGtNat
  by_cases h1 : 100000 < m <;> by_cases h2 : 10000 < c <;> simp [h1, h2]

/-- The `this.results` record (lines 117-127). `breakdown.mcpServers`,
`breakdown.mcpToolsDetailed` and `breakdown.agents` are keys that do not
exist until first assigned, hence `Option`. Every token field is a JS
number preset to 0 by the constructor; only the MCP token count (and
through the final sum, the total) can become NaN, via an
inherited-property server name. -/
structure Results where
  systemPrompt : JsNum
  systemTools : JsNum
  mcpTools : JsNum
  customAgents : JsNum
  memoryFiles : JsNum
  total : JsNum
  mcpServers : Option (List (String × Option Nat))
  mcpToolsDetailed : Option (List (String × Option (List ToolEntry)))
  agents : Option (List (String × Nat))
  optimization : List Recommendation
  projectPath : String

/-- The constructor defaults of `this.results` (lines 117-127). -/
def initResults (projectRoot : String) : Results :=
  ⟨0, 0, 0, 0, 0, 0, none, none, none, [], projectRoot⟩

/-- The static MCP token table `mcpToolsData` (lines 180-428). -/
def mcpToolsData : List (String × ServerData) := [
  ("fetch", ⟨643, [⟨"mcp__fetch__fetch", 643⟩]⟩),
  ("sequential-thinking", ⟨1300, [⟨"mcp__sequential-thinking__sequentialthinking", 1300⟩]⟩),
  ("byterover-mcp", ⟨968, [⟨"mcp__byterover-mcp__byterover-retrieve-knowledge", 456⟩, ⟨"mcp__byterover-mcp__byterover-store-knowledge", 512⟩]⟩),
  ("puppeteer", ⟨1815, [⟨"mcp__puppeteer__puppeteer_navigate", 432⟩, ⟨"mcp__puppeteer__puppeteer_screenshot", 398⟩, ⟨"mcp__puppeteer__puppeteer_click", 287⟩, ⟨"mcp__puppeteer__puppeteer_fill", 298⟩, ⟨"mcp__puppeteer__puppeteer_select", 210⟩, ⟨"mcp__puppeteer__puppeteer_hover", 190⟩]⟩),
  ("mcp-playwright", ⟨15234, [⟨"mcp__mcp-playwright__start_codegen_session", 567⟩, ⟨"mcp__mcp-playwright__playwright_navigate", 456⟩, ⟨"mcp__mcp-playwright__playwright_screenshot", 623⟩, ⟨"mcp__mcp-playwright__playwright_click", 298⟩, ⟨"mcp__mcp-playwright__playwright_fill", 289⟩, ⟨"mcp__mcp-playwright__playwright_evaluate", 334⟩, ⟨"mcp__mcp-playwright__playwright_console_logs", 445⟩, ⟨"mcp__mcp-playwright__playwright_get_visible_text", 234⟩, ⟨"mcp__mcp-playwright__playwright_get_visible_html", 523⟩, ⟨"mcp__mcp-playwright__playwright_upload_file", 387⟩, ⟨"mcp__mcp-playwright__playwright_drag", 298⟩, ⟨"mcp__mcp-playwright__playwright_press_key", 267⟩, ⟨"mcp__mcp-playwright__playwright_save_as_pdf", 445⟩, ⟨"mcp__mcp-playwright__playwright_get", 198⟩, ⟨"mcp__mcp-playwright__playwright_post", 234⟩, ⟨"mcp__mcp-playwright__playwright_put", 187⟩, ⟨"mcp__mcp-playwright__playwright_delete", 156⟩, ⟨"mcp__mcp-playwright__playwright_expect_response", 387⟩, ⟨"mcp__mcp-playwright__playwright_assert_response", 334⟩, ⟨"mcp__mcp-playwright__playwright_close", 123⟩]⟩),
  ("everything", ⟨2167, [⟨"mcp__everything__echo", 198⟩, ⟨"mcp__everything__add", 156⟩, ⟨"mcp__everything__longRunningOperation", 387⟩, ⟨"mcp__everything__printEnv", 167⟩, ⟨"mcp__everything__sampleLLM", 298⟩, ⟨"mcp__everything__getTinyImage", 134⟩, ⟨"mcp__everything__annotatedMessage", 445⟩, ⟨"mcp__everything__getResourceReference", 382⟩]⟩),
  ("github-official", ⟨12456, [⟨"mcp__github-official__create_or_update_file", 567⟩, ⟨"mcp__github-official__search_repositories", 434⟩, ⟨"mcp__github-official__create_repository", 398⟩, ⟨"mcp__github-official__get_file_contents", 445⟩, ⟨"mcp__github-official__push_files", 512⟩, ⟨"mcp__github-official__create_issue", 389⟩, ⟨"mcp__github-official__create_pull_request", 623⟩, ⟨"mcp__github-official__fork_repository", 334⟩, ⟨"mcp__github-official__create_branch", 387⟩, ⟨"mcp__github-official__list_commits", 298⟩, ⟨"mcp__github-official__list_issues", 456⟩, ⟨"mcp__github-official__update_issue", 423⟩, ⟨"mcp__github-official__add_issue_comment", 287⟩, ⟨"mcp__github-official__search_code", 345⟩, ⟨"mcp__github-official__search_issues", 367⟩, ⟨"mcp__github-official__search_users", 298⟩, ⟨"mcp__github-official__get_issue", 234⟩, ⟨"mcp__github-official__get_pull_request", 267⟩, ⟨"mcp__github-official__list_pull_requests", 489⟩, ⟨"mcp__github-official__create_pull_request_review", 678⟩, ⟨"mcp__github-official__merge_pull_request", 456⟩, ⟨"mcp__github-official__get_pull_request_files", 334⟩, ⟨"mcp__github-official__get_pull_request_status", 298⟩, ⟨"mcp__github-official__update_pull_request_branch", 387⟩, ⟨"mcp__github-official__get_pull_request_comments", 345⟩, ⟨"mcp__github-official__get_pull_request_reviews", 323⟩]⟩),
  ("mcp-filesystem", ⟨4234, [⟨"mcp__mcp-filesystem__read_file", 456⟩, ⟨"mcp__mcp-filesystem__read_multiple_files", 523⟩, ⟨"mcp__mcp-filesystem__write_file", 398⟩, ⟨"mcp__mcp-filesystem__edit_file", 623⟩, ⟨"mcp__mcp-filesystem__create_directory", 367⟩, ⟨"mcp__mcp-filesystem__list_directory", 423⟩, ⟨"mcp__mcp-filesystem__list_directory_with_sizes", 489⟩, ⟨"mcp__mcp-filesystem__directory_tree", 445⟩, ⟨"mcp__mcp-filesystem__move_file", 298⟩, ⟨"mcp__mcp-filesystem__search_files", 387⟩, ⟨"mcp__mcp-filesystem__get_file_info", 334⟩, ⟨"mcp__mcp-filesystem__list_allowed_directories", 191⟩]⟩),
  ("context7-mcp", ⟨1023, [⟨"mcp__context7-mcp__resolve-library-id", 567⟩, ⟨"mcp__context7-mcp__get-library-docs", 456⟩]⟩),
  ("brave-search", ⟨823, [⟨"mcp__brave-search__brave_web_search", 434⟩, ⟨"mcp__brave-search__brave_local_search", 389⟩]⟩),
  ("deep-code-reasoning", ⟨4267, [⟨"mcp__deep-code-reasoning__escalate_analysis", 678⟩, ⟨"mcp__deep-code-reasoning__trace_execution_path", 534⟩, ⟨"mcp__deep-code-reasoning__hypothesis_test", 456⟩, ⟨"mcp__deep-code-reasoning__cross_system_impact", 523⟩, ⟨"mcp__deep-code-reasoning__performance_bottleneck", 445⟩, ⟨"mcp__deep-code-reasoning__start_conversation", 389⟩, ⟨"mcp__deep-code-reasoning__continue_conversation", 334⟩, ⟨"mcp__deep-code-reasoning__finalize_conversation", 267⟩, ⟨"mcp__deep-code-reasoning__get_conversation_status", 234⟩, ⟨"mcp__deep-code-reasoning__run_hypothesis_tournament", 407⟩]⟩),
  ("supabase", ⟨14567, [⟨"mcp__supabase__list_organizations", 298⟩, ⟨"mcp__supabase__get_organization", 267⟩, ⟨"mcp__supabase__list_projects", 234⟩, ⟨"mcp__supabase__get_project", 198⟩, ⟨"mcp__supabase__get_cost", 345⟩, ⟨"mcp__supabase__confirm_cost", 367⟩, ⟨"mcp__supabase__create_project", 567⟩, ⟨"mcp__supabase__pause_project", 189⟩, ⟨"mcp__supabase__restore_project", 198⟩, ⟨"mcp__supabase__create_branch", 434⟩, ⟨"mcp__supabase__list_branches", 334⟩, ⟨"mcp__supabase__delete_branch", 187⟩, ⟨"mcp__supabase__merge_branch", 198⟩, ⟨"mcp__supabase__reset_branch", 267⟩, ⟨"mcp__supabase__rebase_branch", 234⟩, ⟨"mcp__supabase__list_tables", 389⟩, ⟨"mcp__supabase__list_extensions", 267⟩, ⟨"mcp__supabase__list_migrations", 298⟩, ⟨"mcp__supabase__apply_migration", 456⟩, ⟨"mcp__supabase__execute_sql", 445⟩, ⟨"mcp__supabase__get_logs", 387⟩, ⟨"mcp__supabase__get_advisors", 423⟩, ⟨"mcp__supabase__get_project_url", 178⟩, ⟨"mcp__supabase__get_anon_key", 167⟩, ⟨"mcp__supabase__generate_typescript_types", 298⟩, ⟨"mcp__supabase__search_docs", 1234⟩, ⟨"mcp__supabase__list_edge_functions", 234⟩, ⟨"mcp__supabase__deploy_edge_function", 623⟩]⟩),
  ("zen-mcp-server", ⟨20456, [⟨"mcp__zen__chat", 1234⟩, ⟨"mcp__zen__thinkdeep", 1456⟩, ⟨"mcp__zen__planner", 1123⟩, ⟨"mcp__zen__consensus", 1089⟩, ⟨"mcp__zen__codereview", 1345⟩, ⟨"mcp__zen__precommit", 1234⟩, ⟨"mcp__zen__debug", 1456⟩, ⟨"mcp__zen__secaudit", 1289⟩, ⟨"mcp__zen__docgen", 1123⟩, ⟨"mcp__zen__analyze", 1234⟩, ⟨"mcp__zen__refactor", 1089⟩, ⟨"mcp__zen__tracer", 1345⟩, ⟨"mcp__zen__testgen", 1234⟩, ⟨"mcp__zen__challenge", 389⟩, ⟨"mcp__zen__listmodels", 234⟩, ⟨"mcp__zen__version", 156⟩]⟩),
  ("claude-flow_Docs", ⟨1234, [⟨"mcp__claude-flow_Docs__fetch_claude_flow_documentation", 298⟩, ⟨"mcp__claude-flow_Docs__search_claude_flow_documentation", 345⟩, ⟨"mcp__claude-flow_Docs__search_claude_flow_code", 367⟩, ⟨"mcp__claude-flow_Docs__fetch_generic_url_content", 224⟩]⟩),
  ("perplexity-mcp", ⟨345, [⟨"mcp__perplexity-mcp__perplexity_search_web", 345⟩]⟩),
  ("Prisma-Local", ⟨1123, [⟨"mcp__Prisma-Local__migrate-status", 367⟩, ⟨"mcp__Prisma-Local__migrate-dev", 423⟩, ⟨"mcp__Prisma-Local__migrate-reset", 333⟩]⟩),
  ("firecrawl", ⟨6756, [⟨"mcp__firecrawl__firecrawl_scrape", 1534⟩, ⟨"mcp__firecrawl__firecrawl_map", 738⟩, ⟨"mcp__firecrawl__firecrawl_crawl", 1634⟩, ⟨"mcp__firecrawl__firecrawl_check_crawl_status", 507⟩, ⟨"mcp__firecrawl__firecrawl_search", 1298⟩, ⟨"mcp__firecrawl__firecrawl_extract", 1045⟩]⟩),
  ("BMAD-METHOD DOCS", ⟨1456, [⟨"mcp__BMAD-METHOD_Docs__fetch_BMAD_METHOD_documentation", 423⟩, ⟨"mcp__BMAD-METHOD_Docs__search_BMAD_METHOD_documentation", 456⟩, ⟨"mcp__BMAD-METHOD_Docs__search_BMAD_METHOD_code", 387⟩, ⟨"mcp__BMAD-METHOD_Docs__fetch_generic_url_content", 190⟩]⟩),
  ("awesome-ui-component-library Docs", ⟨1234, [⟨"mcp__awesome-ui-component-library_Docs__fetch_awesome_docs", 334⟩, ⟨"mcp__awesome-ui-component-library_Docs__search_repo_docs", 387⟩, ⟨"mcp__awesome-ui-component-library_Docs__search_repo_code", 298⟩, ⟨"mcp__awesome-ui-component-library_Docs__fetch_generic_url_content", 215⟩]⟩)
]

/-- One iteration of the loop at lines 434-447: a known server
contributes its table total, an unknown one contributes 2000 tokens and
a single synthetic tool entry. The guard is the truthiness of the
property read `mcpToolsData[server]`, so a name inherited from
`Object.prototype` (for example "toString") also takes the known-server
branch: there `serverData.total` and `serverData.tools` are undefined,
`mcpTotal += undefined` turns the total into NaN, and the breakdown and
detailed keys are assigned undefined. The accumulator is
`(mcpTotal, breakdown, detailed)`. -/
def mcpStep (table : List (String × ServerData))
    (acc : JsNum × List (String × Option Nat) × List (String × Option (List ToolEntry)))
    (server : String) :
    JsNum × List (String × Option Nat) × List (String × Option (List ToolEntry)) :=
  match jsGetProp table server with
  | .own d =>
      (acc.1 + .num d.total, jsSet acc.2.1 server (some d.total),
       jsSet acc.2.2 server (some d.tools))
  | .inherited =>
      (JsNum.nan, jsSet acc.2.1 server none, jsSet acc.2.2 server none)
  | .absent =>
      (acc.1 + 2000, jsSet acc.2.1 server (some 2000),
       jsSet acc.2.2 server (some [⟨"mcp__" ++ server ++ "__unknown", 2000⟩]))

/-- The whole loop over `enabledServers`, starting from `(0, {}, {})`. -/
def processEnabledServers (table : List (String × ServerData)) (enabled : List String) :
    JsNum × List (String × Option Nat) × List (String × Option (List ToolEntry)) :=
  enabled.foldl (mcpStep table) (0, [], [])

/-- `analyzeMcpTools` (lines 155-466). `settings` is the parsed
`enabledMcpjsonServers` list; `none` means both the project-local and
the global settings read failed (missing file or malformed JSON), which
the catch block turns into the 120000-token fallback without touching
the cache. On a fresh successful run the results are memoised and the
snapshot timestamp and project path are stored (lines 454-460). -/
def analyzeMcpTools (table : List (String × ServerData)) (settings : Option (List String))
    (projectRoot : String) (now : Nat) (st : Results × JsCache) : Results × JsCache :=
  let r := st.1
  let c := st.2
  if isCacheValid c now projectRoot && c.mcpTools.isSome then
    let m := c.mcpTools.getD ⟨0, [], []⟩
    ({ r with mcpTools := m.total, mcpServers := some m.breakdown,
              mcpToolsDetailed := some m.detailed }, c)
  else
    match settings with
    | some enabled =>
        let out := processEnabledServers table enabled
        ({ r with mcpTools := out.1, mcpServers := some out.2.1,
                  mcpToolsDetailed := some out.2.2 },
         storeSnapshot
           { c with mcpTools := some ⟨out.1, out.2.1, out.2.2⟩ } now projectRoot)
    | none => ({ r with mcpTools := 120000 }, c)

/-- Outcome of `fs.access` plus `fs.readdir` on `<claudeDir>/agents`:
a missing directory is caught by the inner try (lines 480-486), while
any other listing error propagates to the outer catch (line 554). -/
inductive DirListing where
  | dirMissing
  | listFailed
  | files (names : List String)

/-- Processing of one directory entry inside the batched loop at lines
495-543, threading `(totalTokens, agentBreakdown, fileCache)`. Only
files ending in `.md` are considered; a valid file cache entry is
reused, otherwise the file is read (`none` means a read error or the
5-second per-file timeout, contributing the 1000-token fallback without
caching). The source reads files in batches of 5 concurrent promises;
this is determinised to listing order, which leaves the token sum and
the final cache contents unchanged. -/
def agentFileStep (claudeDir : String) (content : String → Option String) (now : Nat)
    (acc : Nat × List (String × Nat) × List FileEntry) (file : String) :
    Nat × List (String × Nat) × List FileEntry :=
  if jsEndsWith file ".md" then
    let filePath := claudeDir ++ "/agents/" ++ file
    let cachedValid :=
      match findFileEntry acc.2.2 filePath with
      | none => false
      | some e => decide (now - e.timestamp < fileCacheTtl)
    if cachedValid then
      let tokens := ((findFileEntry acc.2.2 filePath).map (fun e => e.tokens)).getD 0
      (acc.1 + tokens, jsSet acc.2.1 file tokens, acc.2.2)
    else
      match content filePath with
      | some text =>
          let tokens := estimateTokens text
          (acc.1 + tokens, jsSet acc.2.1 file tokens,
           setFileEntry acc.2.2 filePath tokens now)
      | none => (acc.1 + 1000, jsSet acc.2.1 file 1000, acc.2.2)
  else acc

/-- The fresh (cache-miss) part of `analyzeCustomAgents` (lines
476-557): a missing directory yields zero tokens and an empty
breakdown, a failed listing falls back to 8900 tokens without touching
the breakdown, and otherwise the directory entries are folded through
`agentFileStep` and the outcome is memoised. -/
def analyzeCustomAgentsFresh (listing : DirListing) (content : String → Option String)
    (claudeDir : String) (now : Nat) (st : Results × JsCache) : Results × JsCache :=
  let r := st.1
  let c := st.2
  match listing with
  | .dirMissing => ({ r with customAgents := 0, agents := some [] }, c)
  | .listFailed => ({ r with customAgents := 8900 }, c)
  | .files names =>
      let out := names.foldl (agentFileStep claudeDir content now) (0, [], c.fileCache)
      ({ r with customAgents := .num out.1, agents := some out.2.1 },
       { c with customAgents := some ⟨out.1, out.2.1⟩, fileCache := out.2.2 })

/-- `analyzeCustomAgents` (lines 468-558), memo check included. -/
def analyzeCustomAgents (listing : DirListing) (content : String → Option String)
    (claudeDir projectRoot : String) (now : Nat) (st : Results × JsCache) :
    Results × JsCache :=
  if isCacheValid st.2 now projectRoot && st.2.customAgents.isSome then
    let m := st.2.customAgents.getD ⟨0, []⟩
    ({ st.1 with customAgents := .num m.total, agents := some m.breakdown }, st.2)
  else analyzeCustomAgentsFresh listing content claudeDir now st

/-- `analyzeMemoryFiles` (lines 560-600). `claudeMd` is the content of
`<claudeDir>/CLAUDE.md`; `none` stands for a read failure or the
3-second per-read timeout, which falls back to 2700 tokens. -/
def analyzeMemoryFiles (claudeMd : Option String) (claudeDir projectRoot : String)
    (now : Nat) (st : Results × JsCache) : Results × JsCache :=
  let r := st.1
  let c := st.2
  if isCacheValid c now projectRoot && truthyNum c.memoryFiles then
    ({ r with memoryFiles := .num (c.memoryFiles.getD 0) }, c)
  else
    let claudeMdPath := claudeDir ++ "/CLAUDE.md"
    if isFileCacheValid c now claudeMdPath then
      let tokens := ((findFileEntry c.fileCache claudeMdPath).map (fun e => e.tokens)).getD 0
      ({ r with memoryFiles := .num tokens }, { c with memoryFiles := some tokens })
    else
      match claudeMd with
      | some text =>
          let tokens := estimateTokens text
          ({ r with memoryFiles := .num tokens },
           { c with memoryFiles := some tokens,
                    fileCache := setFileEntry c.fileCache claudeMdPath tokens now })
      | none => ({ r with memoryFiles := 2700 }, c)

/-- `analyzeSystemPrompt` (lines 145-148): a fixed constant. -/
def analyzeSystemPrompt (st : Results × JsCache) : Results × JsCache :=
  ({ st.1 with systemPrompt := 8500 }, st.2)

/-- `analyzeSystemTools` (lines 150-153): a fixed constant. -/
def analyzeSystemTools (st : Results × JsCache) : Results × JsCache :=
  ({ st.1 with systemTools := 15200 }, st.2)

/-- Filesystem and settings state visible to one analysis run, after a
project root has been resolved. -/
structure Env where
  claudeDir : String
  projectRoot : String
  settings : Option (List String)
  agentsListing : DirListing
  agentFileContent : String → Option String
  claudeMd : Option String

/-- Which analyzers settled before the 3-second global timeout. When
`timeoutFired = false` the `Promise.allSettled` side won the race, in
which case every analyzer ran; when it fired, an analyzer that had not
settled leaves its result field at the constructor value 0, and the
recommendation step inside the try block is skipped. -/
structure Sched where
  timeoutFired : Bool
  ranSystemPrompt : Bool
  ranSystemTools : Bool
  ranMcpTools : Bool
  ranCustomAgents : Bool
  ranMemoryFiles : Bool

def runIf (b : Bool) (f : Results × JsCache → Results × JsCache)
    (st : Results × JsCache) : Results × JsCache :=
  if b then f st else st

/-- The body of `ContextAnalyzer.analyze` (lines 638-709) after
`initialize`: run the five analyzers, generate recommendations unless
the global timeout aborted the try block, then unconditionally recompute
`results.total` as the sum of the five category fields (lines 691-696). -/
def analyzeCore (env : Env) (sched : Sched) (now : Nat) (c : JsCache) :
    Results × JsCache :=
  let st0 := (initResults env.projectRoot, c)
  let st1 := runIf sched.ranSystemPrompt analyzeSystemPrompt st0
  let st2 := runIf sched.ranSystemTools analyzeSystemTools st1
  let st3 := runIf sched.ranMcpTools
    (analyzeMcpTools mcpToolsData env.settings env.projectRoot now) st2
  let st4 := runIf sched.ranCustomAgents
    (analyzeCustomAgents env.agentsListing env.agentFileContent env.claudeDir
      env.projectRoot now) st3
  let st5 := runIf sched.ranMemoryFiles
    (analyzeMemoryFiles env.claudeMd env.claudeDir env.projectRoot now) st4
  let r := st5.1
  let r1 :=
    if sched.timeoutFired then r
    else
      { r with optimization :=
          (generateOptimizationRecommendationsJs r.mcpTools r.customAgents
            ((r.mcpServers.getD []).length)) }
  ({ r1 with total := r1.systemPrompt + r1.systemTools + r1.mcpTools +
       r1.customAgents + r1.memoryFiles }, st5.2)

/-- `analyze` including `initialize` (lines 130-143 and 638-709): the
cache is cleaned first, then a failed project-root discovery is the only
error that escapes to the caller; `env = none` models that case. -/
def analyze (env : Option Env) (sched : Sched) (now : Nat) (c : JsCache) :
    Except String (Results × JsCache) :=
  let c1 := cleanupCache now c
  match env with
  | none => .error "No .claude directory found in current path or parent directories."
  | some e => .ok (analyzeCore e sched now c1)

end CCC.ContextAnalyzer

namespace CCC.SimpleAnalyzer

/-- The static MCP token table of the simplified variant (`mcpServers`,
lines 934-1068 of the combined source). -/
def mcpServers : List (String × ServerData) := [
  ("fetch", ⟨643, [⟨"mcp__fetch__fetch", 643⟩]⟩),
  ("sequential-thinking", ⟨1300, [⟨"mcp__sequential-thinking__sequentialthinking", 1300⟩]⟩),
  ("puppeteer", ⟨3415, [⟨"mcp__puppeteer__puppeteer_navigate", 490⟩, ⟨"mcp__puppeteer__puppeteer_screenshot", 506⟩, ⟨"mcp__puppeteer__puppeteer_click", 395⟩, ⟨"mcp__puppeteer__puppeteer_fill", 414⟩, ⟨"mcp__puppeteer__puppeteer_select", 419⟩, ⟨"mcp__puppeteer__puppeteer_hover", 396⟩, ⟨"mcp__puppeteer__puppeteer_evaluate", 393⟩]⟩),
  ("mcp-playwright", ⟨12456, [⟨"mcp__mcp-playwright__start_codegen_session", 498⟩, ⟨"mcp__mcp-playwright__playwright_navigate", 557⟩, ⟨"mcp__mcp-playwright__playwright_screenshot", 573⟩, ⟨"mcp__mcp-playwright__playwright_click", 395⟩, ⟨"mcp__mcp-playwright__playwright_fill", 413⟩, ⟨"mcp__mcp-playwright__playwright_evaluate", 392⟩, ⟨"mcp__mcp-playwright__playwright_console_logs", 509⟩, ⟨"mcp__mcp-playwright__playwright_get_visible_text", 380⟩, ⟨"mcp__mcp-playwright__playwright_get_visible_html", 613⟩, ⟨"mcp__mcp-playwright__playwright_close", 374⟩, ⟨"mcp__mcp-playwright__playwright_get", 393⟩, ⟨"mcp__mcp-playwright__playwright_post", 470⟩, ⟨"mcp__mcp-playwright__playwright_put", 417⟩, ⟨"mcp__mcp-playwright__playwright_delete", 393⟩, ⟨"mcp__mcp-playwright__playwright_expect_response", 457⟩, ⟨"mcp__mcp-playwright__playwright_assert_response", 455⟩, ⟨"mcp__mcp-playwright__playwright_custom_user_agent", 405⟩, ⟨"mcp__mcp-playwright__playwright_go_back", 374⟩, ⟨"mcp__mcp-playwright__playwright_go_forward", 374⟩, ⟨"mcp__mcp-playwright__playwright_drag", 425⟩, ⟨"mcp__mcp-playwright__playwright_press_key", 433⟩, ⟨"mcp__mcp-playwright__playwright_save_as_pdf", 541⟩, ⟨"mcp__mcp-playwright__playwright_click_and_switch_tab", 405⟩]⟩),
  ("everything", ⟨2167, [⟨"mcp__everything__echo", 198⟩, ⟨"mcp__everything__add", 156⟩, ⟨"mcp__everything__longRunningOperation", 387⟩, ⟨"mcp__everything__printEnv", 167⟩, ⟨"mcp__everything__sampleLLM", 298⟩, ⟨"mcp__everything__getTinyImage", 134⟩, ⟨"mcp__everything__annotatedMessage", 445⟩, ⟨"mcp__everything__getResourceReference", 382⟩]⟩),
  ("github-official", ⟨12456, [⟨"mcp__github-official__create_or_update_file", 570⟩, ⟨"mcp__github-official__search_repositories", 474⟩, ⟨"mcp__github-official__create_repository", 477⟩, ⟨"mcp__github-official__get_file_contents", 492⟩, ⟨"mcp__github-official__push_files", 574⟩, ⟨"mcp__github-official__create_issue", 498⟩, ⟨"mcp__github-official__create_pull_request", 596⟩, ⟨"mcp__github-official__fork_repository", 471⟩, ⟨"mcp__github-official__create_branch", 497⟩, ⟨"mcp__github-official__list_commits", 458⟩, ⟨"mcp__github-official__list_issues", 541⟩, ⟨"mcp__github-official__update_issue", 531⟩, ⟨"mcp__github-official__add_issue_comment", 455⟩, ⟨"mcp__github-official__search_code", 469⟩, ⟨"mcp__github-official__search_issues", 533⟩, ⟨"mcp__github-official__search_users", 490⟩, ⟨"mcp__github-official__get_issue", 443⟩, ⟨"mcp__github-official__get_pull_request", 468⟩, ⟨"mcp__github-official__list_pull_requests", 632⟩, ⟨"mcp__github-official__create_pull_request_review", 804⟩, ⟨"mcp__github-official__merge_pull_request", 550⟩, ⟨"mcp__github-official__get_pull_request_files", 473⟩, ⟨"mcp__github-official__get_pull_request_status", 475⟩, ⟨"mcp__github-official__update_pull_request_branch", 505⟩, ⟨"mcp__github-official__get_pull_request_comments", 471⟩, ⟨"mcp__github-official__get_pull_request_reviews", 470⟩]⟩),
  ("mcp-filesystem", ⟨4234, [⟨"mcp__mcp-filesystem__read_file", 456⟩, ⟨"mcp__mcp-filesystem__read_multiple_files", 523⟩, ⟨"mcp__mcp-filesystem__write_file", 398⟩, ⟨"mcp__mcp-filesystem__edit_file", 623⟩, ⟨"mcp__mcp-filesystem__create_directory", 367⟩, ⟨"mcp__mcp-filesystem__list_directory", 423⟩, ⟨"mcp__mcp-filesystem__directory_tree", 445⟩, ⟨"mcp__mcp-filesystem__move_file", 298⟩, ⟨"mcp__mcp-filesystem__search_files", 387⟩, ⟨"mcp__mcp-filesystem__get_file_info", 334⟩]⟩),
  ("context7-mcp", ⟨1023, [⟨"mcp__context7-mcp__resolve-library-id", 567⟩, ⟨"mcp__context7-mcp__get-library-docs", 456⟩]⟩),
  ("brave-search", ⟨823, [⟨"mcp__brave-search__brave_web_search", 434⟩, ⟨"mcp__brave-search__brave_local_search", 389⟩]⟩),
  ("deep-code-reasoning", ⟨4267, [⟨"mcp__deep-code-reasoning__escalate_analysis", 678⟩, ⟨"mcp__deep-code-reasoning__trace_execution_path", 534⟩, ⟨"mcp__deep-code-reasoning__hypothesis_test", 456⟩, ⟨"mcp__deep-code-reasoning__cross_system_impact", 523⟩, ⟨"mcp__deep-code-reasoning__performance_bottleneck", 445⟩, ⟨"mcp__deep-code-reasoning__start_conversation", 389⟩, ⟨"mcp__deep-code-reasoning__continue_conversation", 334⟩, ⟨"mcp__deep-code-reasoning__finalize_conversation", 267⟩]⟩),
  ("supabase", ⟨14567, [⟨"mcp__supabase__list_organizations", 298⟩, ⟨"mcp__supabase__get_organization", 267⟩, ⟨"mcp__supabase__list_projects", 234⟩, ⟨"mcp__supabase__create_project", 567⟩, ⟨"mcp__supabase__execute_sql", 445⟩, ⟨"mcp__supabase__search_docs", 1234⟩, ⟨"mcp__supabase__deploy_edge_function", 623⟩]⟩),
  ("perplexity-mcp", ⟨345, [⟨"mcp__perplexity-mcp__perplexity_search_web", 345⟩]⟩),
  ("firecrawl", ⟨6756, [⟨"mcp__firecrawl__firecrawl_scrape", 1534⟩, ⟨"mcp__firecrawl__firecrawl_crawl", 1634⟩, ⟨"mcp__firecrawl__firecrawl_search", 1298⟩]⟩),
  ("awesome-ui-component-library Docs", ⟨1234, [⟨"mcp__awesome-ui-component-library_Docs__fetch_awesome_docs", 334⟩, ⟨"mcp__awesome-ui-component-library_Docs__search_repo_docs", 387⟩, ⟨"mcp__awesome-ui-component-library_Docs__search_repo_code", 298⟩, ⟨"mcp__awesome-ui-component-library_Docs__fetch_generic_url_content", 215⟩]⟩),
  ("BMAD-METHOD DOCS", ⟨1456, [⟨"mcp__BMAD-METHOD_Docs__fetch_BMAD_METHOD_documentation", 423⟩, ⟨"mcp__BMAD-METHOD_Docs__search_BMAD_METHOD_documentation", 456⟩, ⟨"mcp__BMAD-METHOD_Docs__search_BMAD_METHOD_code", 387⟩, ⟨"mcp__BMAD-METHOD_Docs__fetch_generic_url_content", 190⟩]⟩)
]

/-- One iteration of the `enabledServers.forEach` loop at lines
1073-1082, accumulating `(total, mcpToolsDetailed)`: known servers add
their table total, unknown servers add 2000 tokens and one synthetic
tool entry. The guard `if (mcpServers[server])` is a truthiness check
on the property read, so a name inherited from `Object.prototype` also
takes the known branch, adding undefined (NaN) to the total and
assigning undefined to the detailed key. -/
def mcpStep (table : List (String × ServerData))
    (acc : JsNum × List (String × Option (List ToolEntry))) (server : String) :
    JsNum × List (String × Option (List ToolEntry)) :=
  match jsGetProp table server with
  | .own d => (acc.1 + .num d.total, jsSet acc.2 server (some d.tools))
  | .inherited => (JsNum.nan, jsSet acc.2 server none)
  | .absent =>
      (acc.1 + 2000,
       jsSet acc.2 server (some [⟨"mcp__" ++ server ++ "__unknown", 2000⟩]))

/-- The hardcoded `mcpToolsDetailed` shown when the settings read fails
(lines 1088-1095). -/
def fallbackDetailed : List (String × Option (List ToolEntry)) := [
  ("fetch", some [⟨"mcp__fetch__fetch", 643⟩]),
  ("github-official", some [⟨"mcp__github-official__create_or_update_file", 570⟩,
    ⟨"mcp__github-official__search_repositories", 474⟩])
]

/-- The MCP section of the simplified `analyze` (lines 923-1096):
`none` settings mean the read or the JSON parse threw, giving the
120000-token fallback. -/
def analyzeMcp (settings : Option (List String)) :
    JsNum × List (String × Option (List ToolEntry)) :=
  match settings with
  | some enabled => enabled.foldl (mcpStep mcpServers) (0, [])
  | none => (120000, fallbackDetailed)

/-- One iteration of the agent-file loop at lines 1106-1118:
only `.md` entries count, a failed read contributes the 100-token
per-file fallback. -/
def agentStep (content : String → Option String)
    (acc : Nat × List (String × Nat)) (file : String) : Nat × List (String × Nat) :=
  if jsEndsWith file ".md" then
    match content file with
    | some text => (acc.1 + estimateTokens text, jsSet acc.2 file (estimateTokens text))
    | none => (acc.1 + 100, jsSet acc.2 file 100)
  else acc

/-- The agents section of the simplified `analyze` (lines 1098-1121):
`files.slice(0, 10)` caps the listing at ten entries; a failed
`readdir` (including a missing agents directory) is caught and falls
back to 4500 tokens with the breakdown left empty. -/
def analyzeAgents (listing : Option (List String)) (content : String → Option String) :
    Nat × List (String × Nat) :=
  match listing with
  | none => (4500, [])
  | some files => (files.take 10).foldl (agentStep content) (0, [])

/-- The memory section of the simplified `analyze` (lines 1123-1130):
fallback 13200 when CLAUDE.md cannot be read. -/
def analyzeMemory (claudeMd : Option String) : Nat :=
  match claudeMd with
  | some text => estimateTokens text
  | none => 13200

/-- Filesystem state of one simplified run, after the `.claude`
directory was found. -/
structure Env where
  settings : Option (List String)
  agentsListing : Option (List String)
  agentFileContent : String → Option String
  claudeMd : Option String

/-- Result record of the simplified variant (locals of `analyze`,
lines 919-1132). The values are JS numbers: only the MCP total, and
through the sum the grand total, can be NaN. -/
structure SimpleResult where
  systemPrompt : JsNum
  systemTools : JsNum
  mcpTools : JsNum
  customAgents : JsNum
  memoryFiles : JsNum
  total : JsNum
  mcpToolsDetailed : List (String × Option (List ToolEntry))
  agentBreakdown : List (String × Nat)

/-- The simplified `analyze` (lines 909-1132) up to the point where the
report text is produced: `total` is computed once as the sum of the
five category values (line 1132). -/
def analyze (env : Env) : SimpleResult :=
  let systemPrompt : JsNum := 8500
  let systemTools : JsNum := 15200
  let mcp := analyzeMcp env.settings
  let agents := analyzeAgents env.agentsListing env.agentFileContent
  let memoryFiles : JsNum := .num (analyzeMemory env.claudeMd)
  ⟨systemPrompt, systemTools, mcp.1, .num agents.1, memoryFiles,
   systemPrompt + systemTools + mcp.1 + .num agents.1 + memoryFiles,
   mcp.2, agents.2⟩

end CCC.SimpleAnalyzer

namespace CCC

/-- C9: The token estimator returns the ceiling of a quarter of the
length of the string, equivalently `(length + 3) / 4` over the naturals,
it is monotone non-decreasing in input length, and maps the empty string
to 0. It is a plain function of the string, hence deterministic and
pure, and its codomain is the natural numbers, hence the result is a
non-negative integer. -/
theorem token_estimator_spec (s t : String) :
    estimateTokens s = (⌈(s.length : ℚ) / 4⌉).toNat ∧
    estimateTokens s = (s.length + 3) / 4 ∧
    (s.length ≤ t.length → estimateTokens s ≤ estimateTokens t) ∧
    estimateTokens "" = 0 := by
  refine ⟨rfl, estimateTokens_eq s, ?_, by rw [estimateTokens_eq]; decide⟩
  intro h
  rw [estimateTokens_eq, estimateTokens_eq]
  exact Nat.div_le_div_right (Nat.add_le_add_right h 3)

/-- Witness for C9 at concrete strings: monotonicity applied to "ab"
and "abcdef". -/
theorem token_estimator_spec_witness :
    estimateTokens "ab" ≤ estimateTokens "abcdef" :=
  (token_estimator_spec "ab" "abcdef").2.2.1 (by decide)

/-- C8: The recommendation engine is a pure function of
`(mcpToolsTokens, customAgentsTokens, serverCount)`; its output is a
sublist of the fixed ordered list [server consolidation (high), agent
architecture (high), selective loading (medium)], so the order is fixed
and nothing else can appear; each item is present exactly when its
threshold is crossed; and at (150000, 500, 3) the output is exactly the
single high-impact server-consolidation recommendation with no
medium-impact entry. -/
theorem recommendation_engine_spec (m c s : Nat) :
    (ContextAnalyzer.generateOptimizationRecommendations m c s).Sublist
      [ContextAnalyzer.consolidateServersRec, ContextAnalyzer.optimizeAgentsRec,
       ContextAnalyzer.selectiveLoadingRec] ∧
    (ContextAnalyzer.consolidateServersRec ∈
        ContextAnalyzer.generateOptimizationRecommendations m c s ↔ 100000 < m) ∧
    (ContextAnalyzer.optimizeAgentsRec ∈
        ContextAnalyzer.generateOptimizationRecommendations m c s ↔ 10000 < c) ∧
    (ContextAnalyzer.selectiveLoadingRec ∈
        ContextAnalyzer.generateOptimizationRecommendations m c s ↔ 15 < s) ∧
    ContextAnalyzer.generateOptimizationRecommendations 150000 500 3 =
      [ContextAnalyzer.consolidateServersRec] ∧
    ((ContextAnalyzer.generateOptimizationRecommendations 150000 500 3).filter
        (fun r => r.impact == "high")).length = 1 ∧
    ((ContextAnalyzer.generateOptimizationRecommendations 150000 500 3).filter
        (fun r => r.impact == "medium")).length = 0 := by
  have hne12 : ContextAnalyzer.consolidateServersRec ≠ ContextAnalyzer.optimizeAgentsRec := by
    decide
  have hne13 : ContextAnalyzer.consolidateServersRec ≠ ContextAnalyzer.selectiveLoadingRec := by
    decide
  have hne21 : ContextAnalyzer.optimizeAgentsRec ≠ ContextAnalyzer.consolidateServersRec := by
    decide
  have hne23 : ContextAnalyzer.optimizeAgentsRec ≠ ContextAnalyzer.selectiveLoadingRec := by
    decide
  have hne31 : ContextAnalyzer.selectiveLoadingRec ≠ ContextAnalyzer.consolidateServersRec := by
    decide
  have hne32 : ContextAnalyzer.selectiveLoadingRec ≠ ContextAnalyzer.optimizeAgentsRec := by
    decide
  refine ⟨?_, ?_, ?_, ?_, by decide, by decide, by decide⟩ <;>
    unfold ContextAnalyzer.generateOptimizationRecommendations <;>
    by_cases h1 : 100000 < m <;> by_cases h2 : 10000 < c <;> by_cases h3 : 15 < s <;>
    simp [h1, h2, h3, hne12, hne13, hne21, hne23, hne31, hne32]

/-- Witness for C8: applying the membership characterisation at the
concrete triple (150000, 500, 3). -/
theorem recommendation_engine_spec_witness :
    ContextAnalyzer.consolidateServersRec ∈
      ContextAnalyzer.generateOptimizationRecommendations 150000 500 3 :=
  (recommendation_engine_spec 150000 500 3).2.1.mpr (by decide)

end CCC

namespace CCC

/-- C4: After storing a snapshot for project path `a` at time `t0`, a
query for a different path `b` misses at every time; a query for `a`
hits while the elapsed time is below the 5-minute TTL (given a nonzero
store time, since `Date.now()` timestamps are nonzero and a zero
timestamp is JS-falsy), and misses from the TTL onwards. -/
theorem snapshot_cache_validity (c : ContextAnalyzer.JsCache) (t0 now : Nat) (a b : String) :
    (b ≠ a →
      ContextAnalyzer.isCacheValid (ContextAnalyzer.storeSnapshot c t0 a) now b = false) ∧
    (0 < t0 → now - t0 < ContextAnalyzer.cacheTtl →
      ContextAnalyzer.isCacheValid (ContextAnalyzer.storeSnapshot c t0 a) now a = true) ∧
    (ContextAnalyzer.cacheTtl ≤ now - t0 →
      ContextAnalyzer.isCacheValid (ContextAnalyzer.storeSnapshot c t0 a) now a = false) := by
  unfold ContextAnalyzer.isCacheValid ContextAnalyzer.storeSnapshot
  refine ⟨?_, ?_, ?_⟩
  · intro hne
    simp [ContextAnalyzer.truthyNum, Ne.symm hne]
  · intro h0 hlt
    simp [ContextAnalyzer.truthyNum, Nat.pos_iff_ne_zero.mp h0, hlt]
  · intro hge
    simp [ContextAnalyzer.truthyNum, Nat.not_lt.mpr hge]

/-- Witness for C4 at concrete inputs: a store for "/a" at time 1000,
queried as "/b" at 2000 (miss), as "/a" at 2000 (hit), and as "/a" at
400000, past the 300000 ms TTL (miss). -/
theorem snapshot_cache_validity_witness :
    ContextAnalyzer.isCacheValid
      (ContextAnalyzer.storeSnapshot ⟨none, none, none, none, none, []⟩ 1000 "/a")
      2000 "/b" = false ∧
    ContextAnalyzer.isCacheValid
      (ContextAnalyzer.storeSnapshot ⟨none, none, none, none, none, []⟩ 1000 "/a")
      2000 "/a" = true ∧
    ContextAnalyzer.isCacheValid
      (ContextAnalyzer.storeSnapshot ⟨none, none, none, none, none, []⟩ 1000 "/a")
      400000 "/a" = false :=
  ⟨(snapshot_cache_validity ⟨none, none, none, none, none, []⟩ 1000 2000 "/a" "/b").1
      (by decide),
   (snapshot_cache_validity ⟨none, none, none, none, none, []⟩ 1000 2000 "/a" "/a").2.1
      (by decide) (by decide),
   (snapshot_cache_validity ⟨none, none, none, none, none, []⟩ 1000 400000 "/a" "/a").2.2
      (by decide)⟩

/-- C6 counterexample: in the simplified variant a missing agents
directory makes `fs.readdir` throw, and the catch block sets the
custom-agents token count to the 4500-token fallback, not to 0, so the
claim that both variants yield 0 fails. -/
theorem simple_agents_missing_dir_ne_zero :
    (SimpleAnalyzer.analyzeAgents none (fun _ => none)).1 = 4500 ∧
    (SimpleAnalyzer.analyzeAgents none (fun _ => none)).1 ≠ 0 := by
  exact ⟨rfl, by decide⟩

/-- C6 amended: with no memoised agents result in the cache, the main
analyzer maps a missing agents directory to zero tokens and an empty
breakdown, leaving the cache untouched and raising no error; the
simplified variant instead falls back to 4500 tokens with an empty
breakdown (its readdir throw is caught), likewise without an error. -/
theorem agents_missing_dir_behavior :
    (∀ (content : String → Option String) (claudeDir projectRoot : String) (now : Nat)
        (r : ContextAnalyzer.Results) (mt : Option ContextAnalyzer.McpMemo)
        (mf ts : Option Nat) (pp : Option String) (fc : List ContextAnalyzer.FileEntry),
      ContextAnalyzer.analyzeCustomAgents .dirMissing content claudeDir projectRoot now
          (r, ⟨mt, none, mf, ts, pp, fc⟩) =
        ({ r with customAgents := 0, agents := some [] }, ⟨mt, none, mf, ts, pp, fc⟩)) ∧
    (∀ content : String → Option String,
      SimpleAnalyzer.analyzeAgents none content = (4500, [])) := by
  constructor
  · intro content claudeDir projectRoot now r mt mf ts pp fc
    unfold ContextAnalyzer.analyzeCustomAgents
    simp [ContextAnalyzer.analyzeCustomAgentsFresh]
  · intro content
    rfl

end CCC

namespace CCC.SimpleAnalyzer

/-- Every key in the breakdown accumulated by the agent-file fold comes
either from the starting accumulator or from the folded list. -/
theorem foldl_agentStep_keys (content : String → Option String) :
    ∀ (l : List String) (acc : Nat × List (String × Nat)) (f : String),
      ((l.foldl (agentStep content) acc).2.lookup f).isSome = true →
      ((acc.2.lookup f).isSome = true ∨ f ∈ l) := by
  intro l
  induction l with
  | nil =>
      intro acc f h
      exact Or.inl h
  | cons a rest ih =>
      intro acc f h
      rcases ih (agentStep content acc a) f h with h2 | h2
      · by_cases hfa : f = a
        · exact Or.inr (hfa ▸ List.mem_cons_self a rest)
        · left
          unfold agentStep at h2
          by_cases hmd : jsEndsWith a ".md"
          · simp only [hmd, if_true] at h2
            cases hc : content a with
            | some text =>
                rw [hc] at h2
                rwa [jsSet_lookup_ne _ _ _ _ hfa] at h2
            | none =>
                rw [hc] at h2
                rwa [jsSet_lookup_ne _ _ _ _ hfa] at h2
          · simpa [hmd] using h2
      · exact Or.inr (List.mem_cons_of_mem a h2)

end CCC.SimpleAnalyzer

namespace CCC

/-- C10: In the simplified variant only the first ten directory entries
are processed: the analysis of a listing equals the analysis of its
first ten entries, so entries beyond the tenth contribute nothing to the
token count, and every file appearing in the agents breakdown is among
the first ten listed entries. -/
theorem simple_agents_first_ten_only (files : List String)
    (content : String → Option String) :
    SimpleAnalyzer.analyzeAgents (some files) content =
      SimpleAnalyzer.analyzeAgents (some (files.take 10)) content ∧
    ∀ f, ((SimpleAnalyzer.analyzeAgents (some files) content).2.lookup f).isSome = true →
      f ∈ files.take 10 := by
  constructor
  · simp [SimpleAnalyzer.analyzeAgents, List.take_take]
  · intro f hf
    unfold SimpleAnalyzer.analyzeAgents at hf
    rcases SimpleAnalyzer.foldl_agentStep_keys content (files.take 10) (0, []) f hf with h | h
    · simp [List.lookup] at h
    · exact h

/-- Witness for C10: with eleven listed files, the file recorded in the
breakdown is among the first ten entries. -/
theorem simple_agents_first_ten_only_witness :
    "a.md" ∈ (["a.md", "b.md", "c.md", "d.md", "e.md", "f.md", "g.md", "h.md",
      "i.md", "j.md", "k.md"].take 10) :=
  (simple_agents_first_ten_only
      ["a.md", "b.md", "c.md", "d.md", "e.md", "f.md", "g.md", "h.md", "i.md",
       "j.md", "k.md"] (fun _ => none)).2 "a.md" (by decide)

end CCC

namespace CCC.ContextAnalyzer

/-- On a list of enabled names that avoids the inherited
`Object.prototype` properties, the token total accumulated by the MCP
loop is the starting total plus the integer sum of the per-server
contributions (the table total for a known name, 2000 for an unknown
one). -/
theorem foldl_mcpStep_total (table : List (String × ServerData)) :
    ∀ (enabled : List String)
      (acc : JsNum × List (String × Option Nat) × List (String × Option (List ToolEntry))),
      (∀ s ∈ enabled, s ∉ objectProtoProps) →
      (enabled.foldl (mcpStep table) acc).1 =
        acc.1 + JsNum.num ((enabled.map (fun s =>
          match table.lookup s with
          | some d => d.total
          | none => 2000)).sum) := by
  intro enabled
  induction enabled with
  | nil =>
      intro acc _
      simp only [List.foldl_nil, List.map_nil, List.sum_nil]
      exact (jsAdd_zero acc.1).symm
  | cons a rest ih =>
      intro acc hsafe
      have hrest : ∀ s ∈ rest, s ∉ objectProtoProps :=
        fun s hs => hsafe s (List.mem_cons_of_mem a hs)
      have ha : a ∉ objectProtoProps := hsafe a (List.mem_cons_self a rest)
      simp only [List.foldl_cons, List.map_cons, List.sum_cons]
      rw [ih _ hrest]
      unfold mcpStep jsGetProp
      cases h : table.lookup a with
      | some d => simp [h, jsAdd_num_assoc]
      | none => simp [h, ha, jsNum_ofNat, jsAdd_num_assoc]

/-- A detailed-breakdown entry survives folding servers other than its
key. -/
theorem foldl_mcpStep_detailed_preserved (table : List (String × ServerData)) (s : String) :
    ∀ (l : List String)
      (acc : JsNum × List (String × Option Nat) × List (String × Option (List ToolEntry)))
      (v : Option (List ToolEntry)), s ∉ l → acc.2.2.lookup s = some v →
      ((l.foldl (mcpStep table) acc).2.2).lookup s = some v := by
  intro l
  induction l with
  | nil => intro acc v _ hv; exact hv
  | cons a rest ih =>
      intro acc v hmem hv
      have hsa : s ≠ a := fun h => hmem (h ▸ List.mem_cons_self a rest)
      have hrest : s ∉ rest := fun h => hmem (List.mem_cons_of_mem a h)
      refine ih (mcpStep table acc a) v hrest ?_
      unfold mcpStep
      cases h : jsGetProp table a with
      | own d => simpa [h] using (jsSet_lookup_ne acc.2.2 a s (some d.tools) hsa).trans hv
      | inherited => simpa [h] using (jsSet_lookup_ne acc.2.2 a s none hsa).trans hv
      | absent =>
          simpa [h] using
            (jsSet_lookup_ne acc.2.2 a s
              (some [⟨"mcp__" ++ a ++ "__unknown", 2000⟩]) hsa).trans hv

/-- After the MCP loop, the detailed entry of every enabled server is
its table tools for an own property, the undefined value for an
inherited property, and the single synthetic entry otherwise. -/
theorem foldl_mcpStep_detailed_lookup (table : List (String × ServerData)) (s : String) :
    ∀ (l : List String)
      (acc : JsNum × List (String × Option Nat) × List (String × Option (List ToolEntry))),
      s ∈ l →
      ((l.foldl (mcpStep table) acc).2.2).lookup s =
        some (match jsGetProp table s with
          | .own d => some d.tools
          | .inherited => none
          | .absent => some [⟨"mcp__" ++ s ++ "__unknown", 2000⟩]) := by
  intro l
  induction l with
  | nil => intro acc h; cases h
  | cons a rest ih =>
      intro acc hmem
      by_cases hrest : s ∈ rest
      · exact ih (mcpStep table acc a) hrest
      · have hsa : s = a := by
          rcases List.mem_cons.mp hmem with h | h
          · exact h
          · exact absurd h hrest
        subst hsa
        refine foldl_mcpStep_detailed_preserved table s rest (mcpStep table acc s) _ hrest ?_
        unfold mcpStep
        cases h : jsGetProp table s with
        | own d => simp [h, jsSet_lookup_self]
        | inherited => simp [h, jsSet_lookup_self]
        | absent => simp [h, jsSet_lookup_self]

end CCC.ContextAnalyzer

namespace CCC

/-- C5 counterexample: enabling the server name "toString" — a truthy
inherited `Object.prototype` property that is not a key of the table —
does not contribute 2000 tokens with a synthetic tool entry as the
claim demands of every unknown name: the property read passes the
truthiness guard, the known-server branch adds the undefined
`serverData.total`, turning the total into NaN, and the detailed entry
is assigned undefined instead of a synthetic tool list. -/
theorem mcp_proto_server_not_2000 :
    (ContextAnalyzer.processEnabledServers ContextAnalyzer.mcpToolsData ["toString"]).1 =
      JsNum.nan ∧
    (ContextAnalyzer.processEnabledServers ContextAnalyzer.mcpToolsData ["toString"]).1 ≠
      JsNum.num 2000 ∧
    ((ContextAnalyzer.processEnabledServers ContextAnalyzer.mcpToolsData
        ["toString"]).2.2).lookup "toString" = some none := by
  refine ⟨by rfl, by decide, by rfl⟩

/-- C5 amended: for every list of enabled server names containing no
inherited `Object.prototype` property name, the MCP token total is the
integer sum over the list of per-name contributions — the table total
for a name present in the injected static table, exactly 2000 for an
unknown name — and each unknown name leaves a single synthetic tool
entry in the detailed breakdown; a name that collides with an inherited
`Object.prototype` property instead poisons the total to NaN and leaves
an undefined detailed entry (counterexample above). Enabling exactly
the known servers "fetch" and "sequential-thinking" yields
643 + 1300 = 1943 tokens. -/
theorem mcp_tokens_sum_spec (table : List (String × ServerData)) (enabled : List String)
    (hsafe : ∀ s ∈ enabled, s ∉ objectProtoProps) :
    (ContextAnalyzer.processEnabledServers table enabled).1 =
      JsNum.num ((enabled.map (fun s =>
        match table.lookup s with
        | some d => d.total
        | none => 2000)).sum) ∧
    (∀ s ∈ enabled, table.lookup s = none →
      ((ContextAnalyzer.processEnabledServers table enabled).2.2).lookup s =
        some (some [⟨"mcp__" ++ s ++ "__unknown", 2000⟩])) ∧
    (ContextAnalyzer.processEnabledServers ContextAnalyzer.mcpToolsData
        ["fetch", "sequential-thinking"]).1 = JsNum.num 1943 := by
  refine ⟨?_, ?_, by rfl⟩
  · have h := ContextAnalyzer.foldl_mcpStep_total table enabled (0, [], []) hsafe
    simpa [ContextAnalyzer.processEnabledServers, jsNum_ofNat, jsAdd_num] using h
  · intro s hs hnone
    have h := ContextAnalyzer.foldl_mcpStep_detailed_lookup table s enabled (0, [], []) hs
    have habs : jsGetProp table s = .absent := by
      unfold jsGetProp
      rw [hnone, if_neg (hsafe s hs)]
    rw [habs] at h
    exact h

/-- Witness for C5: an unknown server name that is not an inherited
property, in a safe enabled list, yields a single synthetic tool entry
in the detailed breakdown. -/
theorem mcp_tokens_sum_spec_witness :
    ((ContextAnalyzer.processEnabledServers ContextAnalyzer.mcpToolsData
        ["unknown-srv"]).2.2).lookup "unknown-srv" =
      some (some [⟨"mcp__unknown-srv__unknown", 2000⟩]) :=
  (mcp_tokens_sum_spec ContextAnalyzer.mcpToolsData ["unknown-srv"] (by decide)).2.1
    "unknown-srv" (by decide) (by rfl)

end CCC

namespace CCC.ContextAnalyzer

/-- The snapshot identity of the cache: its timestamp and project path. -/
def snapKeys (c : JsCache) : Option Nat × Option String := (c.timestamp, c.projectPath)

/-- The custom-agents analyzer never writes the snapshot timestamp or
project path. -/
theorem analyzeCustomAgents_snapKeys (listing : DirListing)
    (content : String → Option String) (claudeDir projectRoot : String) (now : Nat)
    (st : Results × JsCache) :
    snapKeys (analyzeCustomAgents listing content claudeDir projectRoot now st).2 =
      snapKeys st.2 := by
  unfold analyzeCustomAgents
  split
  · rfl
  · unfold analyzeCustomAgentsFresh
    cases listing <;> rfl

/-- The memory-file analyzer never writes the snapshot timestamp or
project path. -/
theorem analyzeMemoryFiles_snapKeys (claudeMd : Option String)
    (claudeDir projectRoot : String) (now : Nat) (st : Results × JsCache) :
    snapKeys (analyzeMemoryFiles claudeMd claudeDir projectRoot now st).2 =
      snapKeys st.2 := by
  unfold analyzeMemoryFiles
  dsimp only
  split <;> first
    | rfl
    | (split <;> first
        | rfl
        | (split <;> rfl))

/-- A conditionally-run analyzer that preserves the snapshot keys still
preserves them. -/
theorem runIf_snapKeys (b : Bool) (f : Results × JsCache → Results × JsCache)
    (st : Results × JsCache) (hf : snapKeys (f st).2 = snapKeys st.2) :
    snapKeys (runIf b f st).2 = snapKeys st.2 := by
  cases b <;> simp [runIf, hf]

/-- When the memo check misses and the settings read succeeds, the MCP
analyzer stores the snapshot timestamp and project path. -/
theorem analyzeMcpTools_stores (table : List (String × ServerData)) (l : List String)
    (projectRoot : String) (now : Nat) (st : Results × JsCache)
    (hmiss : (isCacheValid st.2 now projectRoot && st.2.mcpTools.isSome) = false) :
    snapKeys (analyzeMcpTools table (some l) projectRoot now st).2 =
      (some now, some projectRoot) := by
  unfold analyzeMcpTools
  dsimp only
  rw [hmiss]
  rfl

end CCC.ContextAnalyzer

namespace CCC

/-- C7 counterexample: a run in which both settings reads fail leaves
the MCP analyzer on its 120000-token fallback path, which never stores
the snapshot; starting from an empty cache, `analyze` returns with the
snapshot cache still holding no timestamp and no project path, so no
entry keyed by the resolved project path "/proj" exists. -/
theorem snapshot_cache_not_written_on_mcp_fallback :
    ((ContextAnalyzer.analyzeCore
        ⟨"/proj/.claude", "/proj", none, .dirMissing, fun _ => none, none⟩
        ⟨false, true, true, true, true, true⟩ 1000
        ⟨none, none, none, none, none, []⟩).2).timestamp = none ∧
    ((ContextAnalyzer.analyzeCore
        ⟨"/proj/.claude", "/proj", none, .dirMissing, fun _ => none, none⟩
        ⟨false, true, true, true, true, true⟩ 1000
        ⟨none, none, none, none, none, []⟩).2).projectPath = none :=
  ⟨rfl, rfl⟩

/-- C7 amended: the snapshot cache is written before `analyze` returns
exactly on the MCP analyzer success path: whenever the MCP analyzer ran
before the global timeout, its memo check missed, and the settings read
succeeded, the returned cache carries the resolved project path and the
current timestamp; on the MCP fallback path or when the MCP analyzer is
lost to the timeout the snapshot keys are not written (counterexample
above). -/
theorem snapshot_cache_written_on_mcp_success (env : ContextAnalyzer.Env)
    (sched : ContextAnalyzer.Sched) (now : Nat) (c : ContextAnalyzer.JsCache)
    (l : List String) (hset : env.settings = some l)
    (hran : sched.ranMcpTools = true)
    (hmiss : (ContextAnalyzer.isCacheValid c now env.projectRoot &&
      c.mcpTools.isSome) = false) :
    ((ContextAnalyzer.analyzeCore env sched now c).2).timestamp = some now ∧
    ((ContextAnalyzer.analyzeCore env sched now c).2).projectPath = some env.projectRoot := by
  have hrunif : ∀ (f : ContextAnalyzer.Results × ContextAnalyzer.JsCache →
      ContextAnalyzer.Results × ContextAnalyzer.JsCache)
      (st : ContextAnalyzer.Results × ContextAnalyzer.JsCache),
      ContextAnalyzer.runIf true f st = f st := fun _ _ => rfl
  have hst2 : (ContextAnalyzer.runIf sched.ranSystemTools ContextAnalyzer.analyzeSystemTools
      (ContextAnalyzer.runIf sched.ranSystemPrompt ContextAnalyzer.analyzeSystemPrompt
        (ContextAnalyzer.initResults env.projectRoot, c))).2 = c := by
    cases sched.ranSystemPrompt <;> cases sched.ranSystemTools <;> rfl
  have key : ContextAnalyzer.snapKeys (ContextAnalyzer.analyzeCore env sched now c).2 =
      (some now, some env.projectRoot) := by
    show ContextAnalyzer.snapKeys
      (ContextAnalyzer.runIf sched.ranMemoryFiles
        (ContextAnalyzer.analyzeMemoryFiles env.claudeMd env.claudeDir env.projectRoot now)
        (ContextAnalyzer.runIf sched.ranCustomAgents
          (ContextAnalyzer.analyzeCustomAgents env.agentsListing env.agentFileContent
            env.claudeDir env.projectRoot now)
          (ContextAnalyzer.runIf sched.ranMcpTools
            (ContextAnalyzer.analyzeMcpTools ContextAnalyzer.mcpToolsData env.settings
              env.projectRoot now)
            (ContextAnalyzer.runIf sched.ranSystemTools ContextAnalyzer.analyzeSystemTools
              (ContextAnalyzer.runIf sched.ranSystemPrompt ContextAnalyzer.analyzeSystemPrompt
                (ContextAnalyzer.initResults env.projectRoot, c)))))).2 =
      (some now, some env.projectRoot)
    rw [ContextAnalyzer.runIf_snapKeys _ _ _
        (ContextAnalyzer.analyzeMemoryFiles_snapKeys _ _ _ _ _),
      ContextAnalyzer.runIf_snapKeys _ _ _
        (ContextAnalyzer.analyzeCustomAgents_snapKeys _ _ _ _ _ _),
      hran, hrunif, hset]
    exact ContextAnalyzer.analyzeMcpTools_stores _ _ _ _ _ (by rw [hst2]; exact hmiss)
  constructor
  · have h := congrArg Prod.fst key
    simpa [ContextAnalyzer.snapKeys] using h
  · have h := congrArg Prod.snd key
    simpa [ContextAnalyzer.snapKeys] using h

/-- Witness for C7 amended: a run with readable settings, starting from
an empty cache, stores the snapshot for the resolved project path. -/
theorem snapshot_cache_written_on_mcp_success_witness :
    ((ContextAnalyzer.analyzeCore
        ⟨"/proj/.claude", "/proj", some ["fetch"], .dirMissing, fun _ => none, none⟩
        ⟨false, true, true, true, true, true⟩ 1000
        ⟨none, none, none, none, none, []⟩).2).timestamp = some 1000 ∧
    ((ContextAnalyzer.analyzeCore
        ⟨"/proj/.claude", "/proj", some ["fetch"], .dirMissing, fun _ => none, none⟩
        ⟨false, true, true, true, true, true⟩ 1000
        ⟨none, none, none, none, none, []⟩).2).projectPath = some "/proj" :=
  snapshot_cache_written_on_mcp_success
    ⟨"/proj/.claude", "/proj", some ["fetch"], .dirMissing, fun _ => none, none⟩
    ⟨false, true, true, true, true, true⟩ 1000
    ⟨none, none, none, none, none, []⟩ ["fetch"] rfl rfl (by decide)

end CCC

namespace CCC

/-- C3: Running `cleanupCache` on a file cache holding 101 entries with
pairwise distinct paths and pairwise distinct timestamps, all younger
than the 10-minute file TTL, leaves exactly 50 entries, and every
surviving entry has a strictly greater timestamp than every evicted
entry, so the survivors are precisely the 50 most recent entries. -/
theorem cleanup_prunes_to_fifty_newest (now : Nat) (c : ContextAnalyzer.JsCache)
    (hlen : c.fileCache.length = 101)
    (_hpaths : c.fileCache.Pairwise (fun a b => a.path ≠ b.path))
    (hts : c.fileCache.Pairwise (fun a b => a.timestamp ≠ b.timestamp))
    (hyoung : ∀ e ∈ c.fileCache, now - e.timestamp < ContextAnalyzer.fileCacheTtl) :
    ((ContextAnalyzer.cleanupCache now c).fileCache).length = 50 ∧
    ∀ e ∈ (ContextAnalyzer.cleanupCache now c).fileCache,
      ∀ e2 ∈ c.fileCache, e2 ∉ (ContextAnalyzer.cleanupCache now c).fileCache →
        e2.timestamp < e.timestamp := by
  have hfilter : c.fileCache.filter
      (fun e => decide (now - e.timestamp ≤ ContextAnalyzer.fileCacheTtl)) = c.fileCache := by
    apply List.filter_eq_self.mpr
    intro e he
    exact decide_eq_true (Nat.le_of_lt (hyoung e he))
  have hperm : (List.insertionSort ContextAnalyzer.tsLe c.fileCache).Perm c.fileCache :=
    List.perm_insertionSort _ _
  have hlens : (List.insertionSort ContextAnalyzer.tsLe c.fileCache).length = 101 := by
    rw [List.length_insertionSort]
    exact hlen
  have hsorted : List.Sorted ContextAnalyzer.tsLe
      (List.insertionSort ContextAnalyzer.tsLe c.fileCache) :=
    List.sorted_insertionSort _ _
  have hts_s : (List.insertionSort ContextAnalyzer.tsLe c.fileCache).Pairwise
      (fun a b => a.timestamp ≠ b.timestamp) :=
    (hperm.pairwise_iff (fun h => Ne.symm h)).mpr hts
  have hstrict : (List.insertionSort ContextAnalyzer.tsLe c.fileCache).Pairwise
      (fun a b => a.timestamp < b.timestamp) :=
    (hsorted.and hts_s).imp (fun hab => lt_of_le_of_ne hab.1 hab.2)
  have hresult : (ContextAnalyzer.cleanupCache now c).fileCache =
      (List.insertionSort ContextAnalyzer.tsLe c.fileCache).drop 51 := by
    unfold ContextAnalyzer.cleanupCache
    dsimp only
    rw [hfilter, hlen]
    norm_num
  have hcross := (List.pairwise_append.mp
    (by rw [List.take_append_drop 51 (List.insertionSort ContextAnalyzer.tsLe c.fileCache)]
        exact hstrict)).2.2
  constructor
  · rw [hresult, List.length_drop, hlens]
  · intro e he e2 he2 hne2
    rw [hresult] at he hne2
    have he2s : e2 ∈ List.insertionSort ContextAnalyzer.tsLe c.fileCache :=
      (hperm.mem_iff).mpr he2
    have he2split : e2 ∈ (List.insertionSort ContextAnalyzer.tsLe c.fileCache).take 51 ∨
        e2 ∈ (List.insertionSort ContextAnalyzer.tsLe c.fileCache).drop 51 := by
      rw [← List.mem_append,
        List.take_append_drop 51 (List.insertionSort ContextAnalyzer.tsLe c.fileCache)]
      exact he2s
    rcases he2split with h | h
    · exact hcross e2 h e he
    · exact absurd h hne2

/-- Witness for C3: a cache of 101 entries inserted at timestamps
0 to 100, cleaned at time 1000, keeps exactly 50 entries, each newer
than every evicted one. -/
theorem cleanup_prunes_to_fifty_newest_witness :
    ((ContextAnalyzer.cleanupCache 1000
        ⟨none, none, none, none, none,
          (List.range 101).map (fun i =>
            (⟨toString i, 0, i⟩ : ContextAnalyzer.FileEntry))⟩).fileCache).length = 50 ∧
    ∀ e ∈ (ContextAnalyzer.cleanupCache 1000
        ⟨none, none, none, none, none,
          (List.range 101).map (fun i =>
            (⟨toString i, 0, i⟩ : ContextAnalyzer.FileEntry))⟩).fileCache,
      ∀ e2 ∈ (List.range 101).map (fun i =>
          (⟨toString i, 0, i⟩ : ContextAnalyzer.FileEntry)),
        e2 ∉ (ContextAnalyzer.cleanupCache 1000
            ⟨none, none, none, none, none,
              (List.range 101).map (fun i =>
                (⟨toString i, 0, i⟩ : ContextAnalyzer.FileEntry))⟩).fileCache →
          e2.timestamp < e.timestamp :=
  cleanup_prunes_to_fifty_newest 1000
    ⟨none, none, none, none, none,
      (List.range 101).map (fun i => (⟨toString i, 0, i⟩ : ContextAnalyzer.FileEntry))⟩
    (by decide) (by decide) (by decide) (by decide)

end CCC

namespace CCC.ContextAnalyzer

/-- All five category fields of a results record are genuine integers,
not NaN. -/
def noNaNFields (r : Results) : Prop :=
  r.systemPrompt ≠ JsNum.nan ∧ r.systemTools ≠ JsNum.nan ∧ r.mcpTools ≠ JsNum.nan ∧
  r.customAgents ≠ JsNum.nan ∧ r.memoryFiles ≠ JsNum.nan

theorem initResults_noNaN (projectRoot : String) : noNaNFields (initResults projectRoot) :=
  ⟨num_ne_nan 0, num_ne_nan 0, num_ne_nan 0, num_ne_nan 0, num_ne_nan 0⟩

theorem analyzeSystemPrompt_noNaN (st : Results × JsCache) (h : noNaNFields st.1) :
    noNaNFields (analyzeSystemPrompt st).1 := by
  obtain ⟨_, h2, h3, h4, h5⟩ := h
  exact ⟨num_ne_nan 8500, h2, h3, h4, h5⟩

theorem analyzeSystemTools_noNaN (st : Results × JsCache) (h : noNaNFields st.1) :
    noNaNFields (analyzeSystemTools st).1 := by
  obtain ⟨h1, _, h3, h4, h5⟩ := h
  exact ⟨h1, num_ne_nan 15200, h3, h4, h5⟩

/-- When every enabled name avoids the inherited `Object.prototype`
properties and any memoised MCP total is an integer, the MCP analyzer
keeps all result fields integral. -/
theorem analyzeMcpTools_noNaN (table : List (String × ServerData))
    (settings : Option (List String)) (projectRoot : String) (now : Nat)
    (st : Results × JsCache)
    (hmemo : ∀ m, st.2.mcpTools = some m → m.total ≠ JsNum.nan)
    (hsafe : ∀ l, settings = some l → ∀ s ∈ l, s ∉ objectProtoProps)
    (h : noNaNFields st.1) :
    noNaNFields (analyzeMcpTools table settings projectRoot now st).1 := by
  obtain ⟨h1, h2, h3, h4, h5⟩ := h
  unfold analyzeMcpTools
  dsimp only
  split
  · rename_i hcond
    have hsome : st.2.mcpTools.isSome = true := by
      simp only [Bool.and_eq_true] at hcond
      exact hcond.2
    obtain ⟨m, hm⟩ := Option.isSome_iff_exists.mp hsome
    refine ⟨h1, h2, ?_, h4, h5⟩
    simpa [hm] using hmemo m hm
  · cases hset : settings with
    | some l =>
        refine ⟨h1, h2, ?_, h4, h5⟩
        have ht := foldl_mcpStep_total table l (0, [], []) (hsafe l hset)
        show (processEnabledServers table l).1 ≠ JsNum.nan
        unfold processEnabledServers
        rw [ht]
        exact num_ne_nan _
    | none => exact ⟨h1, h2, num_ne_nan 120000, h4, h5⟩

theorem analyzeCustomAgents_noNaN (listing : DirListing)
    (content : String → Option String) (claudeDir projectRoot : String) (now : Nat)
    (st : Results × JsCache) (h : noNaNFields st.1) :
    noNaNFields (analyzeCustomAgents listing content claudeDir projectRoot now st).1 := by
  obtain ⟨h1, h2, h3, _, h5⟩ := h
  unfold analyzeCustomAgents analyzeCustomAgentsFresh
  dsimp only
  split
  · exact ⟨h1, h2, h3, num_ne_nan _, h5⟩
  · cases listing with
    | dirMissing => exact ⟨h1, h2, h3, num_ne_nan 0, h5⟩
    | listFailed => exact ⟨h1, h2, h3, num_ne_nan 8900, h5⟩
    | files names => exact ⟨h1, h2, h3, num_ne_nan _, h5⟩

theorem analyzeMemoryFiles_noNaN (claudeMd : Option String)
    (claudeDir projectRoot : String) (now : Nat) (st : Results × JsCache)
    (h : noNaNFields st.1) :
    noNaNFields (analyzeMemoryFiles claudeMd claudeDir projectRoot now st).1 := by
  obtain ⟨h1, h2, h3, h4, _⟩ := h
  unfold analyzeMemoryFiles
  dsimp only
  split <;> first
    | exact ⟨h1, h2, h3, h4, num_ne_nan _⟩
    | (split <;> first
        | exact ⟨h1, h2, h3, h4, num_ne_nan _⟩
        | (split <;> exact ⟨h1, h2, h3, h4, num_ne_nan _⟩))

theorem runIf_noNaN (b : Bool) (f : Results × JsCache → Results × JsCache)
    (st : Results × JsCache) (hf : noNaNFields st.1 → noNaNFields (f st).1)
    (h : noNaNFields st.1) : noNaNFields (runIf b f st).1 := by
  cases b
  · exact h
  · exact hf h

theorem totalSum_ne_nan {r : Results} (h : noNaNFields r) :
    r.systemPrompt + r.systemTools + r.mcpTools + r.customAgents + r.memoryFiles ≠
      JsNum.nan := by
  obtain ⟨h1, h2, h3, h4, h5⟩ := h
  exact jsAdd_ne_nan (jsAdd_ne_nan (jsAdd_ne_nan (jsAdd_ne_nan h1 h2) h3) h4) h5

/-- Under safe enabled names and an integral memoised MCP total, the
aggregator returns integral category fields and an integral total. -/
theorem analyzeCore_noNaN (env : Env) (sched : Sched) (now : Nat) (c : JsCache)
    (hsafe : ∀ l, env.settings = some l → ∀ s ∈ l, s ∉ objectProtoProps)
    (hmemo : ∀ m, c.mcpTools = some m → m.total ≠ JsNum.nan) :
    noNaNFields (analyzeCore env sched now c).1 ∧
    (analyzeCore env sched now c).1.total ≠ JsNum.nan := by
  have hst2 : (runIf sched.ranSystemTools analyzeSystemTools
      (runIf sched.ranSystemPrompt analyzeSystemPrompt
        (initResults env.projectRoot, c))).2 = c := by
    cases sched.ranSystemPrompt <;> cases sched.ranSystemTools <;> rfl
  have h0 : noNaNFields (initResults env.projectRoot, c).1 := initResults_noNaN _
  have h1 := runIf_noNaN sched.ranSystemPrompt analyzeSystemPrompt _
    (analyzeSystemPrompt_noNaN _) h0
  have h2 := runIf_noNaN sched.ranSystemTools analyzeSystemTools _
    (analyzeSystemTools_noNaN _) h1
  have h3 := runIf_noNaN sched.ranMcpTools
    (analyzeMcpTools mcpToolsData env.settings env.projectRoot now) _
    (analyzeMcpTools_noNaN mcpToolsData env.settings env.projectRoot now _
      (by intro m hm; rw [hst2] at hm; exact hmemo m hm) hsafe) h2
  have h4 := runIf_noNaN sched.ranCustomAgents
    (analyzeCustomAgents env.agentsListing env.agentFileContent env.claudeDir
      env.projectRoot now) _
    (analyzeCustomAgents_noNaN env.agentsListing env.agentFileContent env.claudeDir
      env.projectRoot now _) h3
  have h5 := runIf_noNaN sched.ranMemoryFiles
    (analyzeMemoryFiles env.claudeMd env.claudeDir env.projectRoot now) _
    (analyzeMemoryFiles_noNaN env.claudeMd env.claudeDir env.projectRoot now _) h4
  unfold analyzeCore
  dsimp only
  cases sched.timeoutFired <;> exact ⟨h5, totalSum_ne_nan h5⟩

end CCC.ContextAnalyzer

namespace CCC.SimpleAnalyzer

/-- Counterpart of the total lemma for the simplified loop: a safe list
of enabled names accumulates an integer total. -/
theorem simple_foldl_mcpStep_total (table : List (String × ServerData)) :
    ∀ (enabled : List String) (acc : JsNum × List (String × Option (List ToolEntry))),
      (∀ s ∈ enabled, s ∉ objectProtoProps) →
      (enabled.foldl (mcpStep table) acc).1 =
        acc.1 + JsNum.num ((enabled.map (fun s =>
          match table.lookup s with
          | some d => d.total
          | none => 2000)).sum) := by
  intro enabled
  induction enabled with
  | nil =>
      intro acc _
      simp only [List.foldl_nil, List.map_nil, List.sum_nil]
      exact (jsAdd_zero acc.1).symm
  | cons a rest ih =>
      intro acc hsafe
      have hrest : ∀ s ∈ rest, s ∉ objectProtoProps :=
        fun s hs => hsafe s (List.mem_cons_of_mem a hs)
      have ha : a ∉ objectProtoProps := hsafe a (List.mem_cons_self a rest)
      simp only [List.foldl_cons, List.map_cons, List.sum_cons]
      rw [ih _ hrest]
      unfold mcpStep jsGetProp
      cases h : table.lookup a with
      | some d => simp [h, jsAdd_num_assoc]
      | none => simp [h, ha, jsNum_ofNat, jsAdd_num_assoc]

end CCC.SimpleAnalyzer

namespace CCC

/-- C1 counterexample: a valid settings file enabling the server name
"toString" — a truthy inherited `Object.prototype` property — makes the
MCP analyzer add the undefined `serverData.total`, so the returned
`mcpToolsTokens` and `totalTokens` are NaN, not integers: the claim
that every category field is always an integer and the total an exact
integer sum fails on this run. -/
theorem totalTokens_nan_on_proto_server :
    ((ContextAnalyzer.analyzeCore
        ⟨"/proj/.claude", "/proj", some ["toString"], .dirMissing, fun _ => none, none⟩
        ⟨false, true, true, true, true, true⟩ 1000
        ⟨none, none, none, none, none, []⟩).1).mcpTools = JsNum.nan ∧
    ((ContextAnalyzer.analyzeCore
        ⟨"/proj/.claude", "/proj", some ["toString"], .dirMissing, fun _ => none, none⟩
        ⟨false, true, true, true, true, true⟩ 1000
        ⟨none, none, none, none, none, []⟩).1).total = JsNum.nan :=
  ⟨rfl, rfl⟩

/-- C1 amended: in both analyzer variants `totalTokens` always equals
the JS-number sum of the five category fields, an identity that
propagates NaN; and all five fields, hence the total, are genuine
integers whenever the enabled-server names avoid the inherited
`Object.prototype` properties and any memoised MCP total in the cache
is itself an integer — an enabled name colliding with an inherited
property instead poisons `mcpToolsTokens` and `totalTokens` to NaN
(counterexample above). -/
theorem totalTokens_eq_sum_of_categories :
    (∀ (env : ContextAnalyzer.Env) (sched : ContextAnalyzer.Sched) (now : Nat)
        (c : ContextAnalyzer.JsCache),
      ((ContextAnalyzer.analyzeCore env sched now c).1).total =
        ((ContextAnalyzer.analyzeCore env sched now c).1).systemPrompt +
        ((ContextAnalyzer.analyzeCore env sched now c).1).systemTools +
        ((ContextAnalyzer.analyzeCore env sched now c).1).mcpTools +
        ((ContextAnalyzer.analyzeCore env sched now c).1).customAgents +
        ((ContextAnalyzer.analyzeCore env sched now c).1).memoryFiles) ∧
    (∀ env : SimpleAnalyzer.Env,
      (SimpleAnalyzer.analyze env).total =
        (SimpleAnalyzer.analyze env).systemPrompt +
        (SimpleAnalyzer.analyze env).systemTools +
        (SimpleAnalyzer.analyze env).mcpTools +
        (SimpleAnalyzer.analyze env).customAgents +
        (SimpleAnalyzer.analyze env).memoryFiles) ∧
    (∀ (env : ContextAnalyzer.Env) (sched : ContextAnalyzer.Sched) (now : Nat)
        (c : ContextAnalyzer.JsCache),
      (∀ l, env.settings = some l → ∀ s ∈ l, s ∉ objectProtoProps) →
      (∀ m, c.mcpTools = some m → m.total ≠ JsNum.nan) →
      ContextAnalyzer.noNaNFields (ContextAnalyzer.analyzeCore env sched now c).1 ∧
      ((ContextAnalyzer.analyzeCore env sched now c).1).total ≠ JsNum.nan) ∧
    (∀ env : SimpleAnalyzer.Env,
      (∀ l, env.settings = some l → ∀ s ∈ l, s ∉ objectProtoProps) →
      (SimpleAnalyzer.analyze env).mcpTools ≠ JsNum.nan ∧
      (SimpleAnalyzer.analyze env).total ≠ JsNum.nan) := by
  refine ⟨fun env sched now c => rfl, fun env => rfl, ?_, ?_⟩
  · intro env sched now c hsafe hmemo
    exact ContextAnalyzer.analyzeCore_noNaN env sched now c hsafe hmemo
  · intro env hsafe
    have hmcp : (SimpleAnalyzer.analyzeMcp env.settings).1 ≠ JsNum.nan := by
      unfold SimpleAnalyzer.analyzeMcp
      cases hset : env.settings with
      | none => exact num_ne_nan 120000
      | some l =>
          have ht := SimpleAnalyzer.simple_foldl_mcpStep_total SimpleAnalyzer.mcpServers l
            (0, []) (hsafe l hset)
          dsimp only
          rw [ht]
          exact num_ne_nan _
    exact ⟨hmcp,
      jsAdd_ne_nan (jsAdd_ne_nan (jsAdd_ne_nan (jsAdd_ne_nan (num_ne_nan 8500)
        (num_ne_nan 15200)) hmcp) (num_ne_nan _)) (num_ne_nan _)⟩

/-- Witness for C1 amended: a run over a safe settings list and an
empty cache returns integral category fields and an integral total. -/
theorem totalTokens_eq_sum_of_categories_witness :
    ContextAnalyzer.noNaNFields ((ContextAnalyzer.analyzeCore
        ⟨"/proj/.claude", "/proj", some ["fetch"], .dirMissing, fun _ => none, none⟩
        ⟨false, true, true, true, true, true⟩ 1000
        ⟨none, none, none, none, none, []⟩).1) ∧
    ((ContextAnalyzer.analyzeCore
        ⟨"/proj/.claude", "/proj", some ["fetch"], .dirMissing, fun _ => none, none⟩
        ⟨false, true, true, true, true, true⟩ 1000
        ⟨none, none, none, none, none, []⟩).1).total ≠ JsNum.nan :=
  totalTokens_eq_sum_of_categories.2.2.1
    ⟨"/proj/.claude", "/proj", some ["fetch"], .dirMissing, fun _ => none, none⟩
    ⟨false, true, true, true, true, true⟩ 1000
    ⟨none, none, none, none, none, []⟩
    (by intro l hl; injection hl with h; subst h; decide)
    (fun m hm => Option.noConfusion hm)

end CCC
